import Mathlib

/-!
Verification development for the logical-clocks repository.

The repository has two tightly coupled pieces:
* `Client/main.py` — the Clock Engine: a per-process loop (`run_clock_cycle`)
  that drives a Lamport logical clock, pops an inbox message and applies the
  receive rule `clock = max(clock, L) + 1`, or (on an empty inbox) draws a
  random event and possibly sends messages embedding its clock value.
* `Server/main.py` — the raw-socket Message Relay: `send_message` routes a
  message to the recipient's live socket or to the per-recipient
  `pending_messages` queue, `handle_client_requests` dispatches parsed requests
  with a bare catch-all, and `check_pending_messages` flushes a recipient's
  pending queue on login.
`Server/test_server.py` additionally tests a gRPC `MessageServer` class whose
implementation is not part of the sources here; where a property is decided by
that class it is modelled from the specification text and marked as such.

Machine integers are modelled as `Nat` (Python integers are unbounded and the
clock never goes negative).  Python's `re.search(r"local clock time is (\d+)")`
is modelled as a leftmost search for the literal pattern followed by a maximal
ASCII-digit run (`\d` also matches non-ASCII Unicode digits in Python; no
message produced by the system contains any).
-/

namespace LogicalClocks

/-! ## Shared protobuf data (proto/service_pb2) -/

namespace Proto

/-- Mirrors `service_pb2.Message`: sender, recipient, body, wall-clock
timestamp string. -/
structure Message where
  sender : String
  recipient : String
  message : String
  timestamp : String
deriving DecidableEq

/-- Mirrors `MessageResponse.MessageStatus` (also used by
`PendingMessageResponse.PendingMessageStatus`). -/
inductive MessageStatus where
  | SUCCESS
  | FAILURE
deriving DecidableEq

/-- Mirrors `service_pb2.PendingMessageResponse`: a status together with the
wrapped message.  The client inbox (`self.message_q`) holds these. -/
structure PendingMessageResponse where
  status : MessageStatus
  message : Message
deriving DecidableEq

end Proto

/-! ## Clock Engine (Client/main.py) -/

namespace Client

/-- Longest leading run of ASCII digits of a character list; models the greedy
`\d+` group of the receive-rule regex. -/
def leadDigits : List Char → List Char
  | [] => []
  | c :: cs => if c.isDigit then c :: leadDigits cs else []

/-- Value of a most-significant-first digit string, as computed by Python's
`int(...)` on the captured group. -/
def digitsToNat (l : List Char) : Nat :=
  l.foldl (fun a c => a * 10 + (c.toNat - 48)) 0

/-- The literal part of the pattern `r"local clock time is (?P<local_clock>\d+)"`. -/
def clockPat : List Char := "local clock time is ".data

/-- Whether the first list occurs literally at the head of the second. -/
def matchStart : List Char → List Char → Bool
  | [], _ => true
  | _ :: _, [] => false
  | p :: ps, c :: cs => p == c && matchStart ps cs

/-- Attempt the regex at the current position: the literal pattern must match
here and be followed by at least one digit; the captured value is the maximal
digit run. -/
def matchHere (l : List Char) : Option Nat :=
  if matchStart clockPat l then
    let ds := leadDigits (l.drop clockPat.length)
    if ds.isEmpty then none else some (digitsToNat ds)
  else none

/-- Model of `re.search(r"local clock time is (?P<local_clock>\d+)", body)`
followed by `int(match.group('local_clock'))`: the leftmost position where the
pattern matches yields the embedded clock value. -/
def searchClock : List Char → Option Nat
  | [] => none
  | c :: cs =>
    match matchHere (c :: cs) with
    | some n => some n
    | none => searchClock cs

/-- ASCII digit character of a single decimal digit. -/
def digitChar (d : Nat) : Char :=
  match d with
  | 0 => '0'
  | 1 => '1'
  | 2 => '2'
  | 3 => '3'
  | 4 => '4'
  | 5 => '5'
  | 6 => '6'
  | 7 => '7'
  | 8 => '8'
  | 9 => '9'
  | _ => '0'

/-- Fuel-driven decimal printing accumulator (`fuel ≥ n + 1` suffices). -/
def natDigitsAux : Nat → Nat → List Char → List Char
  | 0, _, acc => acc
  | fuel + 1, n, acc =>
    if n < 10 then digitChar n :: acc
    else natDigitsAux fuel (n / 10) (digitChar (n % 10) :: acc)

/-- Decimal digit string of a natural number, as produced by Python's
`f"{clock}"` interpolation. -/
def natDigits (n : Nat) : List Char := natDigitsAux (n + 1) n []

/-- Body of a send-event message: `f"the local clock time is {clock}"`. -/
def mkClockMsg (n : Nat) : String := "the local clock time is " ++ String.mk (natDigits n)

/-- The per-process Clock Engine state touched by one tick of
`Client.run_clock_cycle`: the logical clock (initialised to 1), the inbox
`self.message_q`, and the fixed peer list `self.other_vms`. -/
structure ClientState where
  logical_clock : Nat
  message_q : List Proto.PendingMessageResponse
  other_vms : List String
deriving DecidableEq

/-- Construction of `self.other_vms` in `Client.__init__`:
`["1","2","3"].remove(current_user)` (removes the first occurrence; for the
intended ids "1","2","3" two peers remain). -/
def initOtherVMs (currentUser : String) : List String :=
  (["1", "2", "3"] : List String).erase currentUser

/-- One `self.logger` line emitted by a tick, with the fields of the f-string
that are part of the model (bodies, recipients, queue length, clock value). -/
inductive LogEntry where
  | received (body : String) (qlen : Nat) (clock : Nat)
  | sentOne (body : String) (recipient : String) (clock : Nat)
  | sentTwo (body : String) (r1 : String) (r2 : String) (clock : Nat)
  | internal (clock : Nat)
deriving DecidableEq

/-- Observable outcome of one tick: the post-tick state, the
`(recipient, body)` pairs passed to `_handle_send_message` in order, and the
log lines written. -/
structure TickResult where
  state : ClientState
  sent : List (String × String)
  logs : List LogEntry
deriving DecidableEq

/-- The receive-rule update applied to the popped inbox entry
(`Client.run_clock_cycle` lines 72-76): if the body embeds a peer clock `L`,
the clock becomes `max(clock, L) + 1`; otherwise it is left unchanged. -/
def recvClock (c : Nat) (r : Proto.PendingMessageResponse) : Nat :=
  match searchClock r.message.message.data with
  | some l => max c l + 1
  | none => c

/-- One iteration of the `while self.running` loop in
`Client.run_clock_cycle`.  `fetched` is the list of `PendingMessageResponse`
entries appended to `self.message_q` by `_handle_get_inbox` on this tick, and
`event` is the value drawn by `random.randint(1, event_probability_upper_range)`
(consulted only when the inbox is empty).  `self.other_vms[0]` / `[1]` are
modelled with `getD`; the constructor guarantees two peers. -/
def runClockCycleTick (s : ClientState) (fetched : List Proto.PendingMessageResponse)
    (event : Nat) : TickResult :=
  match s.message_q ++ fetched with
  | r :: rest =>
    let newClock := recvClock s.logical_clock r
    { state := { logical_clock := newClock, message_q := rest, other_vms := s.other_vms }
      sent := []
      logs := [LogEntry.received r.message.message rest.length newClock] }
  | [] =>
    let newClock := s.logical_clock + 1
    let body := mkClockMsg newClock
    let st : ClientState :=
      { logical_clock := newClock, message_q := [], other_vms := s.other_vms }
    let vm0 := s.other_vms.getD 0 ""
    let vm1 := s.other_vms.getD 1 ""
    match event with
    | 1 =>
      { state := st, sent := [(vm0, body)], logs := [LogEntry.sentOne body vm0 newClock] }
    | 2 =>
      { state := st, sent := [(vm1, body)], logs := [LogEntry.sentOne body vm1 newClock] }
    | 3 =>
      { state := st, sent := [(vm0, body), (vm1, body)]
        logs := [LogEntry.sentTwo body vm0 vm1 newClock] }
    | _ =>
      { state := st, sent := [], logs := [LogEntry.internal newClock] }

/-- Outcome of the RPC `self.stub.SendMessage(message_request)` as seen by
`_handle_send_message`: the call either raises (transport unreachable) or
completes with a response status. -/
inductive RPCOutcome where
  | raised
  | completed (status : Proto.MessageStatus)
deriving DecidableEq

/-- What the Clock Engine does after a send attempt: terminate the process
(`sys.exit(code)`) or keep running. -/
inductive EngineAction where
  | terminated (code : Nat)
  | keepsRunning
deriving DecidableEq

/-- Observable result of `Client._handle_send_message`: the request it built,
the resulting control action, and whether `self.logger.error` was called. -/
structure SendHandlerResult where
  request : Proto.Message
  action : EngineAction
  loggedError : Bool
deriving DecidableEq

/-- Model of `Client._handle_send_message(recipient, message)`: it builds the
`Message` request and calls the stub once; if the call raises, it logs the
error and calls `sys.exit(1)` (no retry); if the call completes with a
non-SUCCESS status it logs the error and returns; on SUCCESS it just returns. -/
def handleSendMessage (currentUser recipient msg timestamp : String)
    (outcome : RPCOutcome) : SendHandlerResult :=
  let req : Proto.Message :=
    { sender := currentUser, recipient := recipient, message := msg, timestamp := timestamp }
  match outcome with
  | RPCOutcome.raised =>
    { request := req, action := EngineAction.terminated 1, loggedError := true }
  | RPCOutcome.completed Proto.MessageStatus.SUCCESS =>
    { request := req, action := EngineAction.keepsRunning, loggedError := false }
  | RPCOutcome.completed Proto.MessageStatus.FAILURE =>
    { request := req, action := EngineAction.keepsRunning, loggedError := true }

end Client

/-! ## Raw-socket Message Relay (Server/main.py) -/

namespace SockServer

/-- A serialized wire frame, abstracting `ClientRequest.serialize(VERSION,
OPCODE, args)` / `serializeJSON` (the `ClientRequest` model itself lives in
`Model/ClientRequest.py`, outside these sources; the spec describes the frame
as `VERSION§LENGTH§OPCODE§arg1§arg2...`, so a frame is determined by version,
opcode and argument list). -/
structure Req where
  version : Nat
  opcode : String
  args : List String
deriving DecidableEq

/-- The server's global mutable state touched by the modelled operations:
`active_connections` (username ↦ socket, sockets identified by a `Nat`
descriptor) and `pending_messages` (a `defaultdict(list)` of undelivered
frames per username). -/
structure SState where
  active_connections : List (String × Nat)
  pending_messages : String → List Req

/-- Result of `send_message(sender, recipient, message)`: either it returns a
response frame, having pushed `delivered` onto the recipient's live socket,
or the socket `send` raised and the exception propagates to the caller. -/
inductive SendOutcome where
  | ok (resp : Req) (delivered : List Req) (st : SState)
  | raised (st : SState)

/-- Whether the call raised. -/
def SendOutcome.didRaise : SendOutcome → Bool
  | SendOutcome.ok _ _ _ => false
  | SendOutcome.raised _ => true

/-- The returned response frame, if the call returned. -/
def SendOutcome.resp? : SendOutcome → Option Req
  | SendOutcome.ok r _ _ => some r
  | SendOutcome.raised _ => none

/-- The frames pushed onto the recipient's live socket by the call. -/
def SendOutcome.delivered : SendOutcome → List Req
  | SendOutcome.ok _ d _ => d
  | SendOutcome.raised _ => []

/-- The server state after the call. -/
def SendOutcome.state : SendOutcome → SState
  | SendOutcome.ok _ _ st => st
  | SendOutcome.raised st => st

/-- Model of `send_message(sender, recipient, message)` (Server/main.py lines
194-233).  It serializes a `NEW_MESSAGE` frame; if the recipient has an entry
in `active_connections` the frame is sent on that socket (modelled by the
environment oracle `sockSend`: a dead socket makes `send` raise, and the
exception propagates out of `send_message`); otherwise the frame is appended
to the recipient's `pending_messages` queue.  Both returning paths answer the
caller with a `RECEIVED_MESSAGE` acknowledgement frame. -/
def send_message (version : Nat) (sockSend : Nat → Bool) (st : SState)
    (sender recipient msg : String) : SendOutcome :=
  let request : Req := { version := version, opcode := "NEW_MESSAGE", args := [sender, recipient, msg] }
  let ack : Req := { version := version, opcode := "RECEIVED_MESSAGE", args := [sender, msg] }
  match st.active_connections.lookup recipient with
  | some fd =>
    if sockSend fd then SendOutcome.ok ack [request] st
    else SendOutcome.raised st
  | none =>
    SendOutcome.ok ack []
      { st with
        pending_messages := fun u =>
          if u = recipient then st.pending_messages u ++ [request]
          else st.pending_messages u }

/-- Outcome of `handle_client_requests` for one parsed request: a response
frame sent back, the literal `"Nothing to do."` default reply, delegation to a
`service_actions` handler (REGISTER/LOGIN/DELETE_*/NOTIFICATION_LIMIT — those
handlers live outside these sources), or the bare `except:` at the end of the
function catching a raised exception, printing to stdout, and sending the
caller nothing at all. -/
inductive HandleResult where
  | responded (resp : Req)
  | respondedRaw (s : String)
  | delegated (opcode : String)
  | swallowed

/-- Whether the handler answered with the given result. -/
def HandleResult.isSwallowed : HandleResult → Bool
  | HandleResult.swallowed => true
  | _ => false

/-- Opcodes whose handlers are imported from `service_actions` (outside these
sources). -/
def serviceOpcodes : List String :=
  ["REGISTER", "LOGIN", "DELETE_MESSAGE", "DELETE_ACCOUNT", "NOTIFICATION_LIMIT"]

/-- Model of `handle_client_requests` (Server/main.py lines 110-191) on one
request.  `parsed` is the result of `parse_request` (`none` models a parse
that raised).  The `SEND_MESSAGE` branch calls `send_message(*arguments)`
(an argument list of the wrong arity raises a `TypeError`).  Every exception
raised anywhere in the `try` block — parse failure, arity error, or a socket
`send` failure inside `send_message` — is caught by the bare `except:` at
lines 189-191, which prints to the server's stdout and sends the caller no
response (`HandleResult.swallowed`). -/
def handle_client_requests (version : Nat) (sockSend : Nat → Bool) (st : SState)
    (parsed : Option (String × List String)) : HandleResult × SState :=
  match parsed with
  | none => (HandleResult.swallowed, st)
  | some (opcode, args) =>
    if opcode = "SEND_MESSAGE" then
      match args with
      | [sender, recipient, msg] =>
        match send_message version sockSend st sender recipient msg with
        | SendOutcome.ok resp _ st' => (HandleResult.responded resp, st')
        | SendOutcome.raised st' => (HandleResult.swallowed, st')
      | _ => (HandleResult.swallowed, st)
    else if serviceOpcodes.contains opcode then
      (HandleResult.delegated opcode, st)
    else
      (HandleResult.respondedRaw "Nothing to do.", st)

/-- The flush loop inside `check_pending_messages`: push the queued frames in
order onto the recipient's socket; `pushOk i` tells whether the i-th `send`
succeeds.  Returns whether every push succeeded and the frames actually
pushed (an exception aborts the loop after the pushes made so far). -/
def flushAux (pushOk : Nat → Bool) : Nat → List Req → Bool × List Req
  | _, [] => (true, [])
  | i, r :: rs =>
    if pushOk i then
      let res := flushAux pushOk (i + 1) rs
      (res.1, r :: res.2)
    else (false, [])

/-- Model of `check_pending_messages(username)` (Server/main.py lines
236-248).  If the pending queue is non-empty, the whole flush runs inside one
`try`: each queued frame is sent on `active_connections[username]` (a missing
entry raises `KeyError`; a dead socket makes `send` raise), and only after the
loop completes is the queue reset to `[]`.  Any exception is caught and the
function returns with the queue untouched.  The second component lists the
frames actually pushed onto the socket. -/
def check_pending_messages (pushOk : Nat → Bool) (st : SState) (username : String) :
    SState × List Req :=
  if (st.pending_messages username).length > 0 then
    match st.active_connections.lookup username with
    | some _ =>
      let res := flushAux pushOk 0 (st.pending_messages username)
      if res.1 then
        ({ st with
            pending_messages := fun u =>
              if u = username then [] else st.pending_messages u }, res.2)
      else (st, res.2)
    | none => (st, [])
  else (st, [])

end SockServer

/-! ## gRPC Message Relay (MessageServer, absent from the sources) -/

namespace GrpcRelay

/-- State of the gRPC `MessageServer` as exercised by
`Server/test_server.py`: `active_clients` (username ↦ streaming-context
handle), `message_queue` (the per-recipient active-delivery queue drained by
`MonitorMessages`), and `pending_messages` (the per-recipient offline queue
drained by `GetPendingMessage`). -/
structure RelayState where
  active_clients : List (String × Nat)
  message_queue : String → List Proto.Message
  pending_messages : String → List Proto.Message

/-- Modelled from the spec: `MessageServer.SendMessage`, whose implementation
is not among these sources (`Server/main.py` here is the raw-socket variant,
while `Server/test_server.py` imports `MessageServer` from `Server.main`).
Spec §4.2: `Send` looks up the recipient in the registry; if present and the
channel reports live, append to the active-delivery queue and return Success;
if present but not-live, remove the registry entry (eviction) and fall through
to the offline path; if absent, append to the pending queue and return
Success; a relay-internal fault (modelled as the liveness check itself
raising, `isActive ctx = none`) returns Failure.  `isActive` models
`context.is_active()` per registered channel handle. -/
def SendMessage (isActive : Nat → Option Bool) (st : RelayState) (m : Proto.Message) :
    Proto.MessageStatus × RelayState :=
  match st.active_clients.lookup m.recipient with
  | some ctx =>
    match isActive ctx with
    | some true =>
      (Proto.MessageStatus.SUCCESS,
        { st with
          message_queue := fun u =>
            if u = m.recipient then st.message_queue u ++ [m] else st.message_queue u })
    | some false =>
      (Proto.MessageStatus.SUCCESS,
        { st with
          active_clients := st.active_clients.filter (fun p => p.1 != m.recipient)
          pending_messages := fun u =>
            if u = m.recipient then st.pending_messages u ++ [m] else st.pending_messages u })
    | none => (Proto.MessageStatus.FAILURE, st)
  | none =>
    (Proto.MessageStatus.SUCCESS,
      { st with
        pending_messages := fun u =>
          if u = m.recipient then st.pending_messages u ++ [m] else st.pending_messages u })

end GrpcRelay

/-! ## Helper lemmas about the Clock Engine model -/

namespace Client

/-- Unfolding of one step of the fuel-driven decimal printer. -/
lemma natDigitsAux_succ (f n : Nat) (acc : List Char) :
    natDigitsAux (f + 1) n acc =
      if n < 10 then digitChar n :: acc
      else natDigitsAux f (n / 10) (digitChar (n % 10) :: acc) := rfl

/-- Decimal digits of a single-digit number. -/
lemma natDigits_lt (n : Nat) (h : n < 10) : natDigits n = [digitChar n] := by
  unfold natDigits
  rw [natDigitsAux_succ, if_pos h]

/-- Any sufficiently large fuel computes the decimal digits, prepended to the
accumulator. -/
lemma natDigitsAux_eq : ∀ (n fuel : Nat) (acc : List Char), n < fuel →
    natDigitsAux fuel n acc = natDigits n ++ acc := by
  intro n
  induction n using Nat.strong_induction_on with
  | _ n ih =>
    intro fuel acc hf
    obtain ⟨f, rfl⟩ : ∃ f, fuel = f + 1 := ⟨fuel - 1, by omega⟩
    rw [natDigitsAux_succ]
    by_cases h10 : n < 10
    · rw [if_pos h10, natDigits_lt n h10]
      rfl
    · have hlt : n / 10 < n := Nat.div_lt_self (by omega) (by omega)
      rw [if_neg h10, ih (n / 10) hlt f (digitChar (n % 10) :: acc) (by omega)]
      have hn : natDigits n = natDigits (n / 10) ++ [digitChar (n % 10)] := by
        conv_lhs => rw [natDigits]
        rw [natDigitsAux_succ, if_neg h10, ih (n / 10) hlt n [digitChar (n % 10)] (by omega)]
      rw [hn, List.append_assoc]
      rfl

/-- Decimal digits of a multi-digit number split off the last digit. -/
lemma natDigits_ge (n : Nat) (h : ¬ n < 10) :
    natDigits n = natDigits (n / 10) ++ [digitChar (n % 10)] := by
  conv_lhs => rw [natDigits]
  rw [natDigitsAux_succ, if_neg h,
    natDigitsAux_eq (n / 10) n [digitChar (n % 10)]
      (lt_of_lt_of_le (Nat.div_lt_self (by omega) (by omega)) (Nat.le_refl n))]

/-- Every character the decimal printer produces is an ASCII digit. -/
lemma digitChar_isDigit (d : Nat) : (digitChar d).isDigit = true :=
  match d with
  | 0 => rfl
  | 1 => rfl
  | 2 => rfl
  | 3 => rfl
  | 4 => rfl
  | 5 => rfl
  | 6 => rfl
  | 7 => rfl
  | 8 => rfl
  | 9 => rfl
  | _ + 10 => rfl

/-- Value of a digit character. -/
lemma digitChar_val (d : Nat) (h : d < 10) : (digitChar d).toNat - 48 = d := by
  interval_cases d <;> rfl

/-- Reading a digit string after appending one digit. -/
lemma digitsToNat_append (l : List Char) (c : Char) :
    digitsToNat (l ++ [c]) = digitsToNat l * 10 + (c.toNat - 48) := by
  unfold digitsToNat
  rw [List.foldl_append]
  rfl

/-- Round trip: reading back the decimal digits of `n` yields `n`.  This is
what makes the protocol convention work: a message body built by
`f"the local clock time is {clock}"` embeds exactly `clock`. -/
lemma digitsToNat_natDigits : ∀ n : Nat, digitsToNat (natDigits n) = n := by
  intro n
  induction n using Nat.strong_induction_on with
  | _ n ih =>
    by_cases h : n < 10
    · rw [natDigits_lt n h]
      have : digitsToNat [digitChar n] = (digitChar n).toNat - 48 := by
        unfold digitsToNat
        simp [List.foldl]
      rw [this, digitChar_val n h]
    · rw [natDigits_ge n h, digitsToNat_append,
        ih (n / 10) (Nat.div_lt_self (by omega) (by omega)),
        digitChar_val (n % 10) (Nat.mod_lt _ (by omega))]
      omega

/-- The decimal printer emits only digits. -/
lemma natDigits_all_digits : ∀ n : Nat, ∀ c ∈ natDigits n, c.isDigit = true := by
  intro n
  induction n using Nat.strong_induction_on with
  | _ n ih =>
    intro c hc
    by_cases h : n < 10
    · rw [natDigits_lt n h] at hc
      rw [List.mem_singleton.mp hc]
      exact digitChar_isDigit n
    · rw [natDigits_ge n h] at hc
      rcases List.mem_append.mp hc with hc | hc
      · exact ih (n / 10) (Nat.div_lt_self (by omega) (by omega)) c hc
      · rw [List.mem_singleton.mp hc]
        exact digitChar_isDigit (n % 10)

/-- The decimal digit string is never empty. -/
lemma natDigits_ne_nil (n : Nat) : natDigits n ≠ [] := by
  by_cases h : n < 10
  · rw [natDigits_lt n h]
    simp
  · rw [natDigits_ge n h]
    simp

/-- The greedy digit scan keeps an all-digit list whole. -/
lemma leadDigits_all : ∀ l : List Char, (∀ c ∈ l, c.isDigit = true) → leadDigits l = l := by
  intro l
  induction l with
  | nil => intro _; rfl
  | cons c cs ih =>
    intro h
    unfold leadDigits
    rw [if_pos (h c (List.mem_cons_self c cs)), ih (fun d hd => h d (List.mem_cons_of_mem c hd))]

/-- The literal part of the pattern matches itself at the head of any list. -/
lemma matchStart_self_append : ∀ (p l : List Char), matchStart p (p ++ l) = true := by
  intro p
  induction p with
  | nil => intro l; rfl
  | cons c cs ih => intro l; simp [matchStart, ih]

/-- Attempting the regex exactly where the literal pattern sits, followed by a
non-empty all-digit suffix, captures the value of that suffix. -/
lemma matchHere_pat (l : List Char) (hne : l ≠ []) (hdig : ∀ c ∈ l, c.isDigit = true) :
    matchHere (clockPat ++ l) = some (digitsToNat l) := by
  unfold matchHere
  rw [matchStart_self_append]
  simp only [if_true]
  rw [List.drop_left, leadDigits_all l hdig]
  cases l with
  | nil => exact absurd rfl hne
  | cons c cs => rfl

/-- Parsing a generated message body recovers the embedded clock value: the
regex model applied to `f"the local clock time is {n}"` yields `n`.  The
pattern first occurs at offset 4 of the body (after `"the "`), and the
greedy digit group reads back exactly the printed decimal digits. -/
lemma searchClock_mkClockMsg (n : Nat) : searchClock (mkClockMsg n).data = some n := by
  have step : searchClock (mkClockMsg n).data =
      (match matchHere (clockPat ++ natDigits n) with
       | some m => some m
       | none => searchClock ("ocal clock time is ".data ++ natDigits n)) := rfl
  rw [step, matchHere_pat (natDigits n) (natDigits_ne_nil n) (natDigits_all_digits n),
    digitsToNat_natDigits n]

/-- Unfolding one tick when the inbox (after the pull) is non-empty: the
oldest entry is popped, the receive rule is applied, nothing is sent, and the
receive is logged. -/
lemma tick_cons (s : ClientState) (fetched : List Proto.PendingMessageResponse)
    (event : Nat) (r : Proto.PendingMessageResponse)
    (rest : List Proto.PendingMessageResponse)
    (h : s.message_q ++ fetched = r :: rest) :
    runClockCycleTick s fetched event =
      { state := { logical_clock := recvClock s.logical_clock r, message_q := rest
                   other_vms := s.other_vms }
        sent := []
        logs := [LogEntry.received r.message.message rest.length
                  (recvClock s.logical_clock r)] } := by
  unfold runClockCycleTick
  rw [h]

/-- On an empty inbox, each message handed to `_handle_send_message` carries
the body built from the already-incremented clock. -/
lemma tick_nil_sent_mem (s : ClientState) (fetched : List Proto.PendingMessageResponse)
    (event : Nat) (p : String × String) (h : s.message_q ++ fetched = [])
    (hp : p ∈ (runClockCycleTick s fetched event).sent) :
    p.2 = mkClockMsg (s.logical_clock + 1) := by
  unfold runClockCycleTick at hp
  rw [h] at hp
  rcases event with _ | _ | _ | _ | e
  · exact absurd hp (List.not_mem_nil p)
  · rw [List.mem_singleton.mp hp]
  · rw [List.mem_singleton.mp hp]
  · rcases List.mem_cons.mp hp with hp | hp
    · rw [hp]
    · rw [List.mem_singleton.mp hp]
  · exact absurd hp (List.not_mem_nil p)

end Client

/-! ## Claims about the Clock Engine -/

/-- C1: Receive rule — for every tick in which the inbox is non-empty and the
popped message's body embeds a peer logical-clock value `L` (matching the
protocol pattern "local clock time is L"), the Clock Engine's clock after the
update equals `max(C, L) + 1`, where `C` is the clock value before the
update. -/
theorem c1_receive_rule (s : Client.ClientState)
    (fetched : List Proto.PendingMessageResponse) (event : Nat)
    (r : Proto.PendingMessageResponse) (rest : List Proto.PendingMessageResponse)
    (L : Nat) (hq : s.message_q ++ fetched = r :: rest)
    (hL : Client.searchClock r.message.message.data = some L) :
    (Client.runClockCycleTick s fetched event).state.logical_clock =
      max s.logical_clock L + 1 := by
  rw [Client.tick_cons s fetched event r rest hq]
  simp only [Client.recvClock, hL]

/-- Witness for C1 at a concrete tick: clock 1 receives a message embedding 5
and becomes `max(1,5)+1 = 6`. -/
theorem c1_receive_rule_witness :
    ((⟨1, [⟨Proto.MessageStatus.SUCCESS, ⟨"1", "2", "the local clock time is 5", "t"⟩⟩],
        ["1", "3"]⟩ : Client.ClientState).message_q ++ [] =
        ⟨Proto.MessageStatus.SUCCESS, ⟨"1", "2", "the local clock time is 5", "t"⟩⟩ ::
          ([] : List Proto.PendingMessageResponse)) ∧
    Client.searchClock
        (Proto.PendingMessageResponse.mk Proto.MessageStatus.SUCCESS
          (Proto.Message.mk "1" "2" "the local clock time is 5" "t")).message.message.data =
      some 5 ∧
    (Client.runClockCycleTick
        ⟨1, [⟨Proto.MessageStatus.SUCCESS, ⟨"1", "2", "the local clock time is 5", "t"⟩⟩],
          ["1", "3"]⟩ [] 7).state.logical_clock = max 1 5 + 1 :=
  ⟨rfl, by decide,
    c1_receive_rule
      ⟨1, [⟨Proto.MessageStatus.SUCCESS, ⟨"1", "2", "the local clock time is 5", "t"⟩⟩],
        ["1", "3"]⟩
      [] 7 ⟨Proto.MessageStatus.SUCCESS, ⟨"1", "2", "the local clock time is 5", "t"⟩⟩
      [] 5 rfl (by decide)⟩

/-- C2 counterexample: a tick whose popped message body ("hello") embeds no
parseable clock value leaves the clock unchanged at 5, so the clock after
that tick is not strictly greater than before — the claim as stated
(covering "whatever the popped message's body contains") is false. -/
theorem c2_counterexample :
    ¬ (5 < (Client.runClockCycleTick
        ⟨5, [⟨Proto.MessageStatus.SUCCESS, ⟨"1", "3", "hello", "t"⟩⟩], ["2", "3"]⟩
        [] 1).state.logical_clock) := by decide

/-- C2 (amended): for every tick in which the inbox (after the pull) is empty
or the popped message's body embeds a parseable clock value, the logical
clock after the tick is strictly greater than its value before the tick. -/
theorem c2_amended_strict_increase (s : Client.ClientState)
    (fetched : List Proto.PendingMessageResponse) (event : Nat)
    (h : s.message_q ++ fetched = [] ∨
      ∃ r rest L, s.message_q ++ fetched = r :: rest ∧
        Client.searchClock r.message.message.data = some L) :
    s.logical_clock < (Client.runClockCycleTick s fetched event).state.logical_clock := by
  rcases h with h | ⟨r, rest, L, hq, hL⟩
  · unfold Client.runClockCycleTick
    rw [h]
    rcases event with _ | _ | _ | _ | e <;> exact Nat.lt_succ_self _
  · rw [Client.tick_cons s fetched event r rest hq]
    simp only [Client.recvClock, hL]
    omega

/-- Witness for C2 (amended) at a concrete empty-inbox tick: clock 4 becomes
5 on an internal event. -/
theorem c2_amended_strict_increase_witness :
    ((⟨4, [], ["2", "3"]⟩ : Client.ClientState).message_q ++ [] = [] ∨
      ∃ r rest L, (⟨4, [], ["2", "3"]⟩ : Client.ClientState).message_q ++ [] = r :: rest ∧
        Client.searchClock r.message.message.data = some L) ∧
    (4 : Nat) < (Client.runClockCycleTick ⟨4, [], ["2", "3"]⟩ [] 9).state.logical_clock :=
  ⟨Or.inl rfl, c2_amended_strict_increase ⟨4, [], ["2", "3"]⟩ [] 9 (Or.inl rfl)⟩

/-- C3 counterexample: with clock 5, an empty inbox and event draw 1, the tick
emits exactly one message whose body is "the local clock time is 6" — it
embeds the post-increment value 6 and not the pre-increment value 5, so the
claim as stated is false. -/
theorem c3_counterexample :
    Client.mkClockMsg 6 = "the local clock time is 6" ∧
    (Client.runClockCycleTick ⟨5, [], ["2", "3"]⟩ [] 1).sent =
      [("2", Client.mkClockMsg 6)] ∧
    Client.searchClock (Client.mkClockMsg 6).data = some 6 ∧
    ¬ Client.searchClock (Client.mkClockMsg 6).data = some 5 := by decide

/-- C3 (amended): for every tick with an empty inbox that draws a non-Internal
event variant, each message emitted in that tick embeds in its body the clock
value from after that tick's increment (the post-increment value
`clock + 1`). -/
theorem c3_amended_post_increment (s : Client.ClientState)
    (fetched : List Proto.PendingMessageResponse) (event : Nat)
    (h : s.message_q ++ fetched = []) :
    ∀ p ∈ (Client.runClockCycleTick s fetched event).sent,
      p.2 = Client.mkClockMsg (s.logical_clock + 1) ∧
      Client.searchClock p.2.data = some (s.logical_clock + 1) := by
  intro p hp
  have h2 := Client.tick_nil_sent_mem s fetched event p h hp
  exact ⟨h2, by rw [h2]; exact Client.searchClock_mkClockMsg (s.logical_clock + 1)⟩

/-- Witness for C3 (amended) at a concrete tick: clock 1, empty inbox, event 3
(send to both peers); the emitted body embeds 2 = 1 + 1. -/
theorem c3_amended_post_increment_witness :
    ((⟨1, [], ["2", "3"]⟩ : Client.ClientState).message_q ++ [] = []) ∧
    (("2", Client.mkClockMsg 2).2 = Client.mkClockMsg (1 + 1) ∧
      Client.searchClock ("2", Client.mkClockMsg 2).2.data = some (1 + 1)) :=
  ⟨rfl,
    c3_amended_post_increment ⟨1, [], ["2", "3"]⟩ [] 3 rfl
      ("2", Client.mkClockMsg 2) (by decide)⟩

/-- C4: for every tick with an empty inbox, the logical clock increases by
exactly one during that tick, regardless of which event variant is drawn and
regardless of how many messages are sent in that tick. -/
theorem c4_empty_inbox_unit_increment (s : Client.ClientState)
    (fetched : List Proto.PendingMessageResponse) (event : Nat)
    (h : s.message_q ++ fetched = []) :
    (Client.runClockCycleTick s fetched event).state.logical_clock =
      s.logical_clock + 1 := by
  unfold Client.runClockCycleTick
  rw [h]
  rcases event with _ | _ | _ | _ | e <;> rfl

/-- Witness for C4 at a concrete tick: clock 2, empty inbox, event 5
(internal); the clock becomes 3. -/
theorem c4_empty_inbox_unit_increment_witness :
    ((⟨2, [], ["1", "3"]⟩ : Client.ClientState).message_q ++ [] = []) ∧
    (Client.runClockCycleTick ⟨2, [], ["1", "3"]⟩ [] 5).state.logical_clock = 2 + 1 :=
  ⟨rfl, c4_empty_inbox_unit_increment ⟨2, [], ["1", "3"]⟩ [] 5 rfl⟩

/-- C7: for every tick in which the inbox is non-empty but the popped
message's body contains no parseable embedded clock value, the logical clock
is left unchanged by that tick's receive step, and the receive event is still
logged for that message. -/
theorem c7_unparseable_receive (s : Client.ClientState)
    (fetched : List Proto.PendingMessageResponse) (event : Nat)
    (r : Proto.PendingMessageResponse) (rest : List Proto.PendingMessageResponse)
    (hq : s.message_q ++ fetched = r :: rest)
    (hparse : Client.searchClock r.message.message.data = none) :
    (Client.runClockCycleTick s fetched event).state.logical_clock = s.logical_clock ∧
    (Client.runClockCycleTick s fetched event).logs =
      [Client.LogEntry.received r.message.message rest.length s.logical_clock] := by
  rw [Client.tick_cons s fetched event r rest hq]
  unfold Client.recvClock
  rw [hparse]
  exact ⟨rfl, rfl⟩

/-- Witness for C7 at a concrete tick: clock 3 pops "hello", stays 3, and the
receive is logged. -/
theorem c7_unparseable_receive_witness :
    ((⟨3, [⟨Proto.MessageStatus.SUCCESS, ⟨"1", "2", "hello", "t"⟩⟩], ["2", "3"]⟩ :
        Client.ClientState).message_q ++ [] =
      ⟨Proto.MessageStatus.SUCCESS, ⟨"1", "2", "hello", "t"⟩⟩ ::
        ([] : List Proto.PendingMessageResponse)) ∧
    Client.searchClock
        (Proto.PendingMessageResponse.mk Proto.MessageStatus.SUCCESS
          (Proto.Message.mk "1" "2" "hello" "t")).message.message.data = none ∧
    ((Client.runClockCycleTick
        ⟨3, [⟨Proto.MessageStatus.SUCCESS, ⟨"1", "2", "hello", "t"⟩⟩], ["2", "3"]⟩
        [] 4).state.logical_clock = 3 ∧
      (Client.runClockCycleTick
        ⟨3, [⟨Proto.MessageStatus.SUCCESS, ⟨"1", "2", "hello", "t"⟩⟩], ["2", "3"]⟩
        [] 4).logs =
        [Client.LogEntry.received "hello" 0 3]) :=
  ⟨rfl, by decide,
    c7_unparseable_receive
      ⟨3, [⟨Proto.MessageStatus.SUCCESS, ⟨"1", "2", "hello", "t"⟩⟩], ["2", "3"]⟩
      [] 4 ⟨Proto.MessageStatus.SUCCESS, ⟨"1", "2", "hello", "t"⟩⟩ []
      rfl (by decide)⟩

/-- C8: for every send attempt by the Clock Engine, if the RPC to the Relay
raises (transport unreachable), the engine reports the failure and terminates
the process with exit code 1 without retrying; if the call completes but the
Relay reports FAILURE, the engine records the error and keeps running; on
SUCCESS it keeps running without recording an error. -/
theorem c8_send_failure_handling (u r m t : String) :
    ((Client.handleSendMessage u r m t Client.RPCOutcome.raised).action =
        Client.EngineAction.terminated 1 ∧
      (Client.handleSendMessage u r m t Client.RPCOutcome.raised).loggedError = true) ∧
    ((Client.handleSendMessage u r m t
        (Client.RPCOutcome.completed Proto.MessageStatus.FAILURE)).action =
        Client.EngineAction.keepsRunning ∧
      (Client.handleSendMessage u r m t
        (Client.RPCOutcome.completed Proto.MessageStatus.FAILURE)).loggedError = true) ∧
    ((Client.handleSendMessage u r m t
        (Client.RPCOutcome.completed Proto.MessageStatus.SUCCESS)).action =
        Client.EngineAction.keepsRunning ∧
      (Client.handleSendMessage u r m t
        (Client.RPCOutcome.completed Proto.MessageStatus.SUCCESS)).loggedError = false) :=
  ⟨⟨rfl, rfl⟩, ⟨rfl, rfl⟩, ⟨rfl, rfl⟩⟩

/-! ## Helper lemma about the gRPC relay registry -/

namespace GrpcRelay

/-- Looking up a key after filtering out every pair with that key yields
nothing. -/
lemma lookup_filter_self (l : List (String × Nat)) (k : String) :
    (l.filter (fun p => p.1 != k)).lookup k = none := by
  induction l with
  | nil => rfl
  | cons p t ih =>
    rw [List.filter_cons]
    by_cases h : p.1 = k
    · simp [h, ih]
    · have hb : (k == p.1) = false := by simp [Ne.symm h]
      simp [h, List.lookup, hb, ih]

end GrpcRelay

/-! ## Claims about the Message Relay -/

/-- C5: for every `send_message` call, if the recipient has no entry in
`active_connections` the serialized message is appended to that recipient's
pending queue (and nothing is pushed to any socket); if the recipient is
registered and its socket is live, the message is pushed on the live socket
and never touches any pending queue; in both cases the caller receives the
`RECEIVED_MESSAGE` acknowledgement (the success status) and no exception. -/
theorem c5_send_routing (version : Nat) (sockSend : Nat → Bool)
    (st : SockServer.SState) (sender recipient msg : String) :
    (st.active_connections.lookup recipient = none →
      (SockServer.send_message version sockSend st sender recipient msg).didRaise = false ∧
      (SockServer.send_message version sockSend st sender recipient msg).resp? =
        some ⟨version, "RECEIVED_MESSAGE", [sender, msg]⟩ ∧
      (SockServer.send_message version sockSend st sender recipient msg).delivered = [] ∧
      (SockServer.send_message version sockSend st sender recipient msg).state.pending_messages
          recipient =
        st.pending_messages recipient ++
          [⟨version, "NEW_MESSAGE", [sender, recipient, msg]⟩] ∧
      (SockServer.send_message version sockSend st sender recipient
          msg).state.active_connections =
        st.active_connections) ∧
    (∀ fd, st.active_connections.lookup recipient = some fd → sockSend fd = true →
      (SockServer.send_message version sockSend st sender recipient msg).didRaise = false ∧
      (SockServer.send_message version sockSend st sender recipient msg).resp? =
        some ⟨version, "RECEIVED_MESSAGE", [sender, msg]⟩ ∧
      (SockServer.send_message version sockSend st sender recipient msg).delivered =
        [⟨version, "NEW_MESSAGE", [sender, recipient, msg]⟩] ∧
      (SockServer.send_message version sockSend st sender recipient msg).state.pending_messages =
        st.pending_messages) := by
  constructor
  · intro h
    have hmain : SockServer.send_message version sockSend st sender recipient msg =
        SockServer.SendOutcome.ok ⟨version, "RECEIVED_MESSAGE", [sender, msg]⟩ []
          { st with
            pending_messages := fun u =>
              if u = recipient then
                st.pending_messages u ++
                  [⟨version, "NEW_MESSAGE", [sender, recipient, msg]⟩]
              else st.pending_messages u } := by
      simp [SockServer.send_message, h]
    rw [hmain]
    refine ⟨rfl, rfl, rfl, ?_, rfl⟩
    simp [SockServer.SendOutcome.state]
  · intro fd h hl
    have hmain : SockServer.send_message version sockSend st sender recipient msg =
        SockServer.SendOutcome.ok ⟨version, "RECEIVED_MESSAGE", [sender, msg]⟩
          [⟨version, "NEW_MESSAGE", [sender, recipient, msg]⟩] st := by
      simp [SockServer.send_message, h, hl]
    rw [hmain]
    exact ⟨rfl, rfl, rfl, rfl⟩

/-- Witness for C5 at two concrete sends: recipient "2" unregistered (message
queued as pending), recipient "3" registered on a live socket (message pushed
to the socket). -/
theorem c5_send_routing_witness :
    ((⟨[], fun _ => []⟩ : SockServer.SState).active_connections.lookup "2" = none) ∧
    (SockServer.send_message 1 (fun _ => true) ⟨[], fun _ => []⟩
        "1" "2" "hi").state.pending_messages "2" =
      (⟨[], fun _ => []⟩ : SockServer.SState).pending_messages "2" ++
        [⟨1, "NEW_MESSAGE", ["1", "2", "hi"]⟩] ∧
    ((⟨[("3", 5)], fun _ => []⟩ : SockServer.SState).active_connections.lookup "3" =
      some 5) ∧
    ((fun _ => true) 5 = true) ∧
    (SockServer.send_message 1 (fun _ => true) ⟨[("3", 5)], fun _ => []⟩
        "1" "3" "hi").delivered = [⟨1, "NEW_MESSAGE", ["1", "3", "hi"]⟩] :=
  ⟨rfl,
    ((c5_send_routing 1 (fun _ => true) ⟨[], fun _ => []⟩ "1" "2" "hi").1 rfl).2.2.2.1,
    by decide, rfl,
    ((c5_send_routing 1 (fun _ => true) ⟨[("3", 5)], fun _ => []⟩ "1" "3" "hi").2
        5 (by decide) rfl).2.2.1⟩

/-- C6: for every gRPC `SendMessage` whose recipient has a registry entry but
whose registered channel reports not-live, the call removes the registry
entry, deposits the message in the recipient's pending queue (and leaves
every active-delivery queue untouched), and still returns SUCCESS to the
caller. -/
theorem c6_stale_registration_eviction (isActive : Nat → Option Bool)
    (st : GrpcRelay.RelayState) (m : Proto.Message) (ctx : Nat)
    (hreg : st.active_clients.lookup m.recipient = some ctx)
    (hdead : isActive ctx = some false) :
    (GrpcRelay.SendMessage isActive st m).1 = Proto.MessageStatus.SUCCESS ∧
    (GrpcRelay.SendMessage isActive st m).2.active_clients.lookup m.recipient = none ∧
    (GrpcRelay.SendMessage isActive st m).2.pending_messages m.recipient =
      st.pending_messages m.recipient ++ [m] ∧
    (GrpcRelay.SendMessage isActive st m).2.message_queue = st.message_queue := by
  have hmain : GrpcRelay.SendMessage isActive st m =
      (Proto.MessageStatus.SUCCESS,
        { st with
          active_clients := st.active_clients.filter (fun p => p.1 != m.recipient)
          pending_messages := fun u =>
            if u = m.recipient then st.pending_messages u ++ [m]
            else st.pending_messages u }) := by
    simp [GrpcRelay.SendMessage, hreg, hdead]
  rw [hmain]
  refine ⟨rfl, GrpcRelay.lookup_filter_self st.active_clients m.recipient, ?_, rfl⟩
  simp

/-- Witness for C6 at a concrete send: "user2" is registered on channel 7
which reports not-live; the entry is evicted, the message lands in the
pending queue, and the caller still gets SUCCESS. -/
theorem c6_stale_registration_eviction_witness :
    ((⟨[("user2", 7)], fun _ => [], fun _ => []⟩ :
        GrpcRelay.RelayState).active_clients.lookup
      (Proto.Message.mk "user1" "user2" "Hello!" "ts").recipient = some 7) ∧
    ((fun _ => some false) 7 = some false) ∧
    (GrpcRelay.SendMessage (fun _ => some false)
        ⟨[("user2", 7)], fun _ => [], fun _ => []⟩
        ⟨"user1", "user2", "Hello!", "ts"⟩).1 = Proto.MessageStatus.SUCCESS ∧
    (GrpcRelay.SendMessage (fun _ => some false)
        ⟨[("user2", 7)], fun _ => [], fun _ => []⟩
        ⟨"user1", "user2", "Hello!", "ts"⟩).2.active_clients.lookup
      (Proto.Message.mk "user1" "user2" "Hello!" "ts").recipient = none :=
  ⟨by decide, rfl,
    (c6_stale_registration_eviction (fun _ => some false)
      ⟨[("user2", 7)], fun _ => [], fun _ => []⟩
      ⟨"user1", "user2", "Hello!", "ts"⟩ 7 (by decide) rfl).1,
    (c6_stale_registration_eviction (fun _ => some false)
      ⟨[("user2", 7)], fun _ => [], fun _ => []⟩
      ⟨"user1", "user2", "Hello!", "ts"⟩ 7 (by decide) rfl).2.1⟩

/-- C9 evidence: at the failing input — a `SEND_MESSAGE` request from "1" to
"2" while "2" has a registry entry whose socket `send` raises — the bare
`except:` in `handle_client_requests` swallows the exception and the caller
receives no response at all (neither Success nor Failure), contradicting the
requirement that unexpected errors be surfaced as a reported Failure.  The
same request with a live socket is answered normally, so the silent drop is
specific to the error path. -/
theorem c9_swallowed_error_evidence :
    (SockServer.handle_client_requests 1 (fun _ => false)
        ⟨[("2", 0)], fun _ => []⟩
        (some ("SEND_MESSAGE", ["1", "2", "hi"]))).1.isSwallowed = true ∧
    (SockServer.handle_client_requests 1 (fun _ => true)
        ⟨[("2", 0)], fun _ => []⟩
        (some ("SEND_MESSAGE", ["1", "2", "hi"]))).1.isSwallowed = false :=
  ⟨rfl, rfl⟩

/-- C10: for every `check_pending_messages` flush of a non-empty pending
queue to a registered recipient, if some push in the flush fails the function
returns with the recipient's pending queue unchanged (the already-pushed
messages included), and the queue is cleared to empty exactly when every push
succeeds. -/
theorem c10_flush_all_or_nothing (pushOk : Nat → Bool) (st : SockServer.SState)
    (username : String) (fd : Nat)
    (hne : st.pending_messages username ≠ [])
    (hconn : st.active_connections.lookup username = some fd) :
    ((SockServer.flushAux pushOk 0 (st.pending_messages username)).1 = false →
      (SockServer.check_pending_messages pushOk st username).1.pending_messages username =
        st.pending_messages username) ∧
    ((SockServer.flushAux pushOk 0 (st.pending_messages username)).1 = true →
      (SockServer.check_pending_messages pushOk st username).1.pending_messages username =
        []) := by
  unfold SockServer.check_pending_messages
  rw [hconn, if_pos (List.length_pos.mpr hne)]
  constructor
  · intro hfail
    simp [hfail]
  · intro hok
    simp [hok]

/-- Witness for C10 at two concrete flushes of the same two-message queue for
"u": one where the second push fails (queue kept whole, first message
included) and one where every push succeeds (queue cleared). -/
theorem c10_flush_all_or_nothing_witness :
    ((⟨[("u", 3)], fun _ => [⟨1, "NEW_MESSAGE", ["a", "u", "x"]⟩,
        ⟨1, "NEW_MESSAGE", ["b", "u", "y"]⟩]⟩ :
      SockServer.SState).pending_messages "u" ≠ []) ∧
    ((⟨[("u", 3)], fun _ => [⟨1, "NEW_MESSAGE", ["a", "u", "x"]⟩,
        ⟨1, "NEW_MESSAGE", ["b", "u", "y"]⟩]⟩ :
      SockServer.SState).active_connections.lookup "u" = some 3) ∧
    (SockServer.check_pending_messages (fun i => i == 0)
        ⟨[("u", 3)], fun _ => [⟨1, "NEW_MESSAGE", ["a", "u", "x"]⟩,
          ⟨1, "NEW_MESSAGE", ["b", "u", "y"]⟩]⟩ "u").1.pending_messages "u" =
      (⟨[("u", 3)], fun _ => [⟨1, "NEW_MESSAGE", ["a", "u", "x"]⟩,
          ⟨1, "NEW_MESSAGE", ["b", "u", "y"]⟩]⟩ :
        SockServer.SState).pending_messages "u" ∧
    (SockServer.check_pending_messages (fun _ => true)
        ⟨[("u", 3)], fun _ => [⟨1, "NEW_MESSAGE", ["a", "u", "x"]⟩,
          ⟨1, "NEW_MESSAGE", ["b", "u", "y"]⟩]⟩ "u").1.pending_messages "u" = [] :=
  ⟨by decide, by decide,
    (c10_flush_all_or_nothing (fun i => i == 0)
        ⟨[("u", 3)], fun _ => [⟨1, "NEW_MESSAGE", ["a", "u", "x"]⟩,
          ⟨1, "NEW_MESSAGE", ["b", "u", "y"]⟩]⟩ "u" 3
        (by decide) (by decide)).1 (by decide),
    (c10_flush_all_or_nothing (fun _ => true)
        ⟨[("u", 3)], fun _ => [⟨1, "NEW_MESSAGE", ["a", "u", "x"]⟩,
          ⟨1, "NEW_MESSAGE", ["b", "u", "y"]⟩]⟩ "u" 3
        (by decide) (by decide)).2 (by decide)⟩

end LogicalClocks
